import Mathlib

/-!
Verification development for the expression-evaluation engine of
`model-viewer` (`src/styles/evaluators.ts`).

The engine computes style values from a parsed CSS-like AST.  We embed the
data model (`NumberNode`, `IdentNode`, `OperatorNode`, `FunctionNode`,
`ExpressionNode`) and the evaluator classes (`EnvEvaluator`,
`CalcEvaluator`, `OperatorEvaluator`, `SphericalEvaluator`) shallowly:

* JavaScript numbers are modelled by `JSNum`, a real number together with
  the special values `+Infinity`, `-Infinity` and `NaN`; the arithmetic
  used by the engine (`+ - * /` and the falsy test of `|| 0`) follows the
  IEEE-style rules of JavaScript (finite arithmetic is taken as exact).
* A JavaScript `TypeError` (reading a property of `undefined`) is modelled
  by `Except JSError`.
* The per-object mutable cache slot (`[$lastValue]`) is a field of each
  evaluator value; `evaluate` returns the updated evaluator together with
  its result and a flag recording whether the object's own `[$evaluate]`
  step ran during the call.
* The browser globals read by `EnvEvaluator` (`window.pageYOffset`, the
  document heights, `window.innerHeight`) are passed explicitly as a
  `BrowserEnv` value.
-/

namespace ModelViewer

/-- A JavaScript number: a finite real, an infinity, or NaN. -/
inductive JSNum : Type where
  | fin : ℝ → JSNum
  | posInf : JSNum
  | negInf : JSNum
  | nan : JSNum

namespace JSNum

noncomputable section

open Classical in
/-- JavaScript addition.  Finite sums are exact; `Infinity + (-Infinity)`
is NaN; NaN is absorbing. -/
def add : JSNum → JSNum → JSNum
  | nan, _ => nan
  | _, nan => nan
  | fin x, fin y => fin (x + y)
  | posInf, negInf => nan
  | negInf, posInf => nan
  | posInf, _ => posInf
  | _, posInf => posInf
  | negInf, _ => negInf
  | _, negInf => negInf

/-- JavaScript negation. -/
def neg : JSNum → JSNum
  | fin x => fin (-x)
  | posInf => negInf
  | negInf => posInf
  | nan => nan

/-- JavaScript subtraction, `a - b = a + (-b)`. -/
def sub (a b : JSNum) : JSNum := add a (neg b)

open Classical in
/-- JavaScript multiplication.  `0 * Infinity` is NaN; NaN is absorbing. -/
def mul : JSNum → JSNum → JSNum
  | nan, _ => nan
  | _, nan => nan
  | fin x, fin y => fin (x * y)
  | fin x, posInf => if x = 0 then nan else if 0 < x then posInf else negInf
  | fin x, negInf => if x = 0 then nan else if 0 < x then negInf else posInf
  | posInf, fin y => if y = 0 then nan else if 0 < y then posInf else negInf
  | negInf, fin y => if y = 0 then nan else if 0 < y then negInf else posInf
  | posInf, posInf => posInf
  | posInf, negInf => negInf
  | negInf, posInf => negInf
  | negInf, negInf => posInf

open Classical in
/-- JavaScript division.  A nonzero finite number divided by zero is a
signed infinity, `0 / 0` is NaN, division by an infinity gives `0`,
`Infinity / Infinity` is NaN; NaN is absorbing. -/
def div : JSNum → JSNum → JSNum
  | nan, _ => nan
  | _, nan => nan
  | fin x, fin y =>
      if y = 0 then (if x = 0 then nan else if 0 < x then posInf else negInf)
      else fin (x / y)
  | posInf, fin y => if y < 0 then negInf else posInf
  | negInf, fin y => if y < 0 then posInf else negInf
  | fin _, posInf => fin 0
  | fin _, negInf => fin 0
  | posInf, posInf => nan
  | posInf, negInf => nan
  | negInf, posInf => nan
  | negInf, negInf => nan

open Classical in
/-- The JavaScript expression `v || 0`: falsy values (`0` and NaN) become
`0`, every other value is kept. -/
def orZero : JSNum → JSNum
  | fin x => if x = 0 then fin 0 else fin x
  | nan => fin 0
  | posInf => posInf
  | negInf => negInf

end

@[simp] theorem add_fin (x y : ℝ) : add (fin x) (fin y) = fin (x + y) := rfl

@[simp] theorem sub_fin (x y : ℝ) : sub (fin x) (fin y) = fin (x + -y) := rfl

@[simp] theorem mul_fin (x y : ℝ) : mul (fin x) (fin y) = fin (x * y) := rfl

theorem div_fin_of_ne {y : ℝ} (x : ℝ) (h : y ≠ 0) :
    div (fin x) (fin y) = fin (x / y) := by
  simp [div, h]

theorem div_fin_zero_pos {x : ℝ} (h : 0 < x) :
    div (fin x) (fin 0) = posInf := by
  simp [div, h, ne_of_gt h]

@[simp] theorem orZero_fin (x : ℝ) : orZero (fin x) = fin x := by
  by_cases h : x = 0 <;> simp [orZero, h]

@[simp] theorem orZero_posInf : orZero posInf = posInf := rfl

@[simp] theorem orZero_nan : orZero nan = fin 0 := rfl

end JSNum

/-- `NumberNode {type: 'number', number, unit}`. -/
structure NumberNode : Type where
  number : JSNum
  unit : Option String

/-- `IdentNode {type: 'ident', value}`. -/
structure IdentNode : Type where
  value : String
deriving DecidableEq

/-- `OperatorNode {type: 'operator', value}`. -/
structure OperatorNode : Type where
  value : String
deriving DecidableEq

/-- The zero-sentinel `NumberNode` used for parse-error scenarios
(`const ZERO`). -/
def ZERO : NumberNode := ⟨.fin 0, none⟩

/-- The `auto` identifier sentinel (`const AUTO`). -/
def AUTO : IdentNode := ⟨"auto"⟩

/-- `ExpressionTerm = NumberNode | IdentNode | OperatorNode | FunctionNode`,
with `FunctionNode {name: IdentNode, arguments: ExpressionNode[]}` and
`ExpressionNode {terms: ExpressionTerm[]}` flattened to the list of terms. -/
inductive ExpressionTerm : Type where
  | num : NumberNode → ExpressionTerm
  | ident : IdentNode → ExpressionTerm
  | op : OperatorNode → ExpressionTerm
  | func : IdentNode → List (List ExpressionTerm) → ExpressionTerm

/-- `ExpressionNode`, reduced to its `terms` list. -/
abbrev ExpressionNode := List ExpressionTerm

/-- The browser state read by `EnvEvaluator.[$evaluate]`. -/
structure BrowserEnv : Type where
  pageYOffset : ℝ
  bodyScrollHeight : ℝ
  bodyOffsetHeight : ℝ
  docClientHeight : ℝ
  docScrollHeight : ℝ
  docOffsetHeight : ℝ
  innerHeight : ℝ

/-- `verticalScrollMax`: the maximum of the five document/body heights. -/
def scrollExtent (w : BrowserEnv) : ℝ :=
  max (max (max (max w.bodyScrollHeight w.bodyOffsetHeight)
    w.docClientHeight) w.docScrollHeight) w.docOffsetHeight

/-- Modelled from the spec: the Unit Normalizer (`normalizeUnit` of
`conversions.ts`) is not part of the shown sources.  Per §6 of the spec it
is a pure function mapping `deg → rad` and `cm`/`mm` → `m`, leaving
`rad`, `m` and `null` unchanged. -/
noncomputable def normalizeUnit (n : NumberNode) : NumberNode :=
  match n.unit with
  | some "deg" => ⟨n.number.mul (.fin (Real.pi / 180)), some "rad"⟩
  | some "cm" => ⟨n.number.mul (.fin (1 / 100)), some "m"⟩
  | some "mm" => ⟨n.number.mul (.fin (1 / 1000)), some "m"⟩
  | _ => n

/-- A JavaScript `TypeError` (here: reading a property of `undefined`). -/
inductive JSError : Type where
  | typeError : JSError
deriving DecidableEq

mutual

/-- A constructed `Evaluator<NumberNode>`: an `EnvEvaluator` (stored
`[$identNode]`), a `CalcEvaluator` (stored `[$evaluator]`), or an
`OperatorEvaluator` (stored `[$operator]`, `[$left]`, `[$right]`).  The
final field of every constructor is the mutable cache slot `[$lastValue]`.
The `CalcEvaluator` slot holds a `SecondOrderTerm` because the source
assigns `secondOrderTerms[0]` with a type assertion: the surviving stack
entry need not actually be an `Evaluator`. -/
inductive Evaluator : Type where
  | envEvaluator : Option IdentNode → Option NumberNode → Evaluator
  | calcEvaluator : Option SecondOrderTerm → Option NumberNode → Evaluator
  | operatorEvaluator : OperatorNode → Evaluatable → Evaluatable → Option NumberNode →
      Evaluator

/-- `Evaluatable<NumberNode> = Evaluator<NumberNode> | NumberNode`. -/
inductive Evaluatable : Type where
  | ev : Evaluator → Evaluatable
  | node : NumberNode → Evaluatable

/-- An entry of the `secondOrderTerms` stack built by the `CalcEvaluator`
constructor: either a raw `OperatorNode` term, or the result of
`Evaluator.evaluatableFor`. -/
inductive SecondOrderTerm : Type where
  | opTerm : OperatorNode → SecondOrderTerm
  | evble : Evaluatable → SecondOrderTerm

end

mutual

/-- The `isConstant` getter of the concrete `Evaluator<NumberNode>`
subclasses: `EnvEvaluator` is always `false`; `CalcEvaluator` is
`this[$evaluator] == null || Evaluator.isConstant(this[$evaluator]!)`;
`OperatorEvaluator` is the conjunction over both operands. -/
def Evaluator.isConstant : Evaluator → Bool
  | .envEvaluator _ _ => false
  | .calcEvaluator none _ => true
  | .calcEvaluator (some s) _ => SecondOrderTerm.isConstant s
  | .operatorEvaluator _ l r _ => Evaluatable.isConstant l && Evaluatable.isConstant r

/-- The static helper `Evaluator.isConstant`: an `Evaluator` delegates to
its own getter, any other value is constant. -/
def Evaluatable.isConstant : Evaluatable → Bool
  | .ev e => Evaluator.isConstant e
  | .node _ => true

/-- The static helper `Evaluator.isConstant` applied to a stack entry: a
raw `OperatorNode` is not an `Evaluator`, hence constant. -/
def SecondOrderTerm.isConstant : SecondOrderTerm → Bool
  | .opTerm _ => true
  | .evble x => Evaluatable.isConstant x

end

mutual

/-- Whether an `EnvEvaluator` occurs anywhere in the tree. -/
def Evaluator.hasEnv : Evaluator → Bool
  | .envEvaluator _ _ => true
  | .calcEvaluator none _ => false
  | .calcEvaluator (some s) _ => SecondOrderTerm.hasEnv s
  | .operatorEvaluator _ l r _ => Evaluatable.hasEnv l || Evaluatable.hasEnv r

/-- Whether an `EnvEvaluator` occurs anywhere in an evaluatable. -/
def Evaluatable.hasEnv : Evaluatable → Bool
  | .ev e => Evaluator.hasEnv e
  | .node _ => false

/-- Whether an `EnvEvaluator` occurs anywhere in a stack entry. -/
def SecondOrderTerm.hasEnv : SecondOrderTerm → Bool
  | .opTerm _ => false
  | .evble x => Evaluatable.hasEnv x

end

/-- The `[$lastValue]` cache slot of an evaluator. -/
def Evaluator.lastValue : Evaluator → Option NumberNode
  | .envEvaluator _ l => l
  | .calcEvaluator _ l => l
  | .operatorEvaluator _ _ _ l => l

/-- Overwrite the `[$lastValue]` cache slot of an evaluator. -/
def Evaluator.setLast : Evaluator → Option NumberNode → Evaluator
  | .envEvaluator i _, v => .envEvaluator i v
  | .calcEvaluator s _, v => .calcEvaluator s v
  | .operatorEvaluator o l r _, v => .operatorEvaluator o l r v

/-- `EnvEvaluator.[$evaluate]`: only the identifier `window-scroll-y` is
recognised; it yields `pageYOffset / (verticalScrollMax - innerHeight)`
guarded by `|| 0`, as a unitless number. -/
noncomputable def envEvaluateStep (idt : Option IdentNode) (w : BrowserEnv) :
    NumberNode :=
  match idt with
  | some i =>
      if i.value = "window-scroll-y" then
        ⟨(JSNum.div (.fin w.pageYOffset)
            (.fin (scrollExtent w - w.innerHeight))).orZero, none⟩
      else ZERO
  | none => ZERO

/-- `OperatorEvaluator.[$evaluate]` after both operands have been
evaluated: normalize both results, reject mismatched non-null units with
the zero sentinel, take the first non-null unit, and apply the operator;
an unrecognised operator yields the zero sentinel. -/
noncomputable def opCombine (o : OperatorNode) (lN rN : NumberNode) :
    NumberNode :=
  let leftNode := normalizeUnit lN
  let rightNode := normalizeUnit rN
  if rightNode.unit ≠ none ∧ leftNode.unit ≠ none ∧
      rightNode.unit ≠ leftNode.unit then ZERO
  else
    let unit := leftNode.unit.orElse fun _ => rightNode.unit
    if o.value = "+" then ⟨leftNode.number.add rightNode.number, unit⟩
    else if o.value = "-" then ⟨leftNode.number.sub rightNode.number, unit⟩
    else if o.value = "/" then ⟨leftNode.number.div rightNode.number, unit⟩
    else if o.value = "*" then ⟨leftNode.number.mul rightNode.number, unit⟩
    else ZERO

mutual

/-- The public `Evaluator.prototype.evaluate`: recompute via the node's
own `[$evaluate]` step iff `!this.isConstant || this[$lastValue] == null`,
storing the result in the cache slot; otherwise return the cached value.
The returned flag records whether the node's own step ran during this
call; the returned evaluator carries the updated cache slots. -/
noncomputable def Evaluator.evaluate (e : Evaluator) (w : BrowserEnv) :
    NumberNode × Evaluator × Bool :=
  match e.lastValue, e.isConstant with
  | some v, true => (v, e, false)
  | _, _ =>
      let r := Evaluator.evaluateStep e w
      (r.1, r.2.setLast (some r.1), true)
termination_by (sizeOf e, 1)

/-- The `[$evaluate]` step of each concrete subclass.  A `CalcEvaluator`
whose slot is unset yields the zero sentinel; a slot holding a raw
`OperatorNode` (possible due to the type assertion on
`secondOrderTerms[0]`) is returned as-is by `Evaluator.evaluate`, which we
model as a number node whose `number`/`unit` fields read as
`undefined`/absent. -/
noncomputable def Evaluator.evaluateStep (e : Evaluator) (w : BrowserEnv) :
    NumberNode × Evaluator :=
  match e with
  | .envEvaluator idt last => (envEvaluateStep idt w, .envEvaluator idt last)
  | .calcEvaluator none last => (ZERO, .calcEvaluator none last)
  | .calcEvaluator (some (.opTerm o)) last =>
      (⟨.nan, none⟩, .calcEvaluator (some (.opTerm o)) last)
  | .calcEvaluator (some (.evble x)) last =>
      let r := Evaluatable.evaluate x w
      (r.1, .calcEvaluator (some (.evble r.2)) last)
  | .operatorEvaluator o l rr last =>
      let a := Evaluatable.evaluate l w
      let b := Evaluatable.evaluate rr w
      (opCombine o a.1 b.1, .operatorEvaluator o a.2 b.2 last)
termination_by (sizeOf e, 0)

/-- The static helper `Evaluator.evaluate`: an `Evaluator` is evaluated,
any other value is returned as-is. -/
noncomputable def Evaluatable.evaluate (x : Evaluatable) (w : BrowserEnv) :
    NumberNode × Evaluatable :=
  match x with
  | .ev e =>
      let r := Evaluator.evaluate e w
      (r.1, .ev r.2.1)
  | .node n => (n, .node n)
termination_by (sizeOf x, 0)

end

/-- `Evaluator.evaluatableFor` applied to an entry of the
`secondOrderTerms` stack.  An `Evaluator` and a `NumberNode` are returned
unchanged; a raw `OperatorNode` reaches
`switch ((node as FunctionNode).name.value)` and reading `.value` of the
`undefined` property `name` throws a `TypeError`. -/
def evaluatableForSO : SecondOrderTerm → Except JSError Evaluatable
  | .evble x => .ok x
  | .opTerm _ => .error .typeError

/-- `IS_MULTIPLICATION_RE.test`, i.e. whether the operator string contains
a `*` or a `/` character. -/
def isMultiplication (o : OperatorNode) : Bool :=
  o.value.data.contains '*' || o.value.data.contains '/'

/-- The second `while` loop of the `CalcEvaluator` constructor: while more
than two entries remain, splice the first three off as
`[left, operator, right]`; if the middle entry is not an operator term the
constructor returns (`.ok none`); otherwise the three are combined into an
`OperatorEvaluator` that is pushed back onto the front.  `.ok (some s)`
returns the remaining stack. -/
def additivePass : List SecondOrderTerm →
    Except JSError (Option (List SecondOrderTerm))
  | a :: b :: c :: rest =>
      match b with
      | .opTerm o => do
          let le ← evaluatableForSO a
          let re ← evaluatableForSO c
          additivePass (.evble (.ev (.operatorEvaluator o le re none)) :: rest)
      | _ => .ok none
  | s => .ok (some s)
termination_by s => s.length
decreasing_by simp

/-- The `EnvEvaluator` constructor, returning the stored `[$identNode]`:
the first term of the first argument when present and an `IdentNode`,
otherwise nothing. -/
def EnvEvaluator.construct (args : List (List ExpressionTerm)) :
    Option IdentNode :=
  match (if args.length ≠ 0 then (args.headD []).head? else none) with
  | some (.ident i) => some i
  | _ => none

/-- `SphericalStyle = [number, number, number | string]`. -/
abbrev SphericalStyle := JSNum × JSNum × (JSNum ⊕ String)

/-- The stored `[$radius]` of a `SphericalEvaluator`: a raw `IdentNode`
when the radius term was an identifier, otherwise the result of
`Evaluator.evaluatableFor`. -/
inductive RadiusSlot : Type where
  | idt : IdentNode → RadiusSlot
  | evble : Evaluatable → RadiusSlot

/-- A constructed `SphericalEvaluator`: the stored `[$theta]`, `[$phi]`
and `[$radius]` slots together with the `[$lastValue]` cache slot. -/
structure SphericalEvaluator : Type where
  theta : Evaluatable
  phi : Evaluatable
  radius : RadiusSlot
  lastValue : Option SphericalStyle

/-- `SphericalEvaluator.isConstant`: the conjunction of the three stored
slots' constancy (`Evaluator.isConstant` of a raw `IdentNode` is true). -/
def SphericalEvaluator.isConstant (s : SphericalEvaluator) : Bool :=
  s.theta.isConstant && s.phi.isConstant &&
    (match s.radius with
     | .idt _ => true
     | .evble x => x.isConstant)

mutual

/-- The static `Evaluator.evaluatableFor` on an `ExpressionTerm`: a
`NumberNode` is returned as-is; a `FunctionNode` named `calc` or `env`
becomes the corresponding evaluator, any other function name degrades to
the zero sentinel.  An `IdentNode` or `OperatorNode` falls through to
`switch ((node as FunctionNode).name.value)`, where reading `.value` of
the `undefined` property `name` throws a `TypeError`. -/
def evaluatableFor : ExpressionTerm → Except JSError Evaluatable
  | .num n => .ok (.node n)
  | .ident _ => .error .typeError
  | .op _ => .error .typeError
  | .func name args =>
      if name.value = "calc" then
        (CalcEvaluator.construct args).map fun s => .ev (.calcEvaluator s none)
      else if name.value = "env" then
        .ok (.ev (.envEvaluator (EnvEvaluator.construct args) none))
      else .ok (.node ZERO)
termination_by t => 3 * sizeOf t
decreasing_by all_goals (simp_wf; try omega)

/-- The `CalcEvaluator` constructor, returning the computed
`[$evaluator]` slot: `none` unless there is exactly one argument, the two
reduction passes succeed, and exactly one stack entry remains. -/
def CalcEvaluator.construct (args : List (List ExpressionTerm)) :
    Except JSError (Option SecondOrderTerm) :=
  match args with
  | [terms] => do
      match ← multiplicativePass terms [] with
      | none => .ok none
      | some s =>
          match ← additivePass s with
          | none => .ok none
          | some [x] => .ok (some x)
          | some _ => .ok none
  | _ => .ok none
termination_by 3 * sizeOf args + 1
decreasing_by all_goals (simp_wf; try omega)

/-- The first `while` loop of the `CalcEvaluator` constructor: each term
is shifted off in order; when the top of the stack is an operator term
containing `*` or `/`, that operator and the entry below it are popped and
combined with the incoming term into an `OperatorEvaluator` (`.ok none` —
constructor returns — when no entry is below); otherwise operator terms
are pushed raw and all other terms are pushed through
`Evaluator.evaluatableFor`. -/
def multiplicativePass (terms : List ExpressionTerm)
    (stack : List SecondOrderTerm) :
    Except JSError (Option (List SecondOrderTerm))
  := match terms with
  | [] => .ok (some stack)
  | term :: rest =>
      match stack.getLast? with
      | some (.opTerm o) =>
          if isMultiplication o then
            match (stack.dropLast).getLast? with
            | none => .ok none
            | some leftValue => do
                let le ← evaluatableForSO leftValue
                let te ← evaluatableFor term
                multiplicativePass rest
                  (stack.dropLast.dropLast ++ [.evble (.ev (.operatorEvaluator o le te none))])
          else pushRaw term rest stack
      | _ => pushRaw term rest stack
termination_by 3 * sizeOf terms + 2
decreasing_by all_goals (simp_wf; try omega)

/-- The final `push` of the first loop's iteration: operator terms go onto
the stack raw, everything else through `Evaluator.evaluatableFor`. -/
def pushRaw (term : ExpressionTerm) (rest : List ExpressionTerm)
    (stack : List SecondOrderTerm) :
    Except JSError (Option (List SecondOrderTerm)) :=
  match term with
  | .op o => multiplicativePass rest (stack ++ [.opTerm o])
  | t => do
      let e ← evaluatableFor t
      multiplicativePass rest (stack ++ [.evble e])
termination_by 3 * (sizeOf term + sizeOf rest) + 4
decreasing_by all_goals (simp_wf; try omega)

end

/-- The `SphericalEvaluator` constructor: only the first expression is
used; missing azimuth/inclination terms default to the zero sentinel and
a missing radius term to the `auto` identifier; azimuth and inclination
are wrapped through `Evaluator.evaluatableFor`, while an identifier
radius term is stored raw. -/
def SphericalEvaluator.construct (expressions : List (List ExpressionTerm)) :
    Except JSError SphericalEvaluator := do
  let terms := expressions.headD []
  let thetaTerm := (terms.get? 0).getD (.num ZERO)
  let phiTerm := (terms.get? 1).getD (.num ZERO)
  let radiusTerm := (terms.get? 2).getD (.ident AUTO)
  let th ← evaluatableFor thetaTerm
  let ph ← evaluatableFor phiTerm
  match radiusTerm with
  | .ident i => pure ⟨th, ph, .idt i, none⟩
  | t => do
      let r ← evaluatableFor t
      pure ⟨th, ph, .evble r, none⟩

/-- `SphericalEvaluator.[$evaluate]`: the radius slot is resolved first
(`Evaluator.evaluate` of a raw `IdentNode` returns it unchanged), then
azimuth and inclination are evaluated and normalized to radians; an
identifier radius contributes its string value, a numeric radius is
normalized to meters. -/
noncomputable def SphericalEvaluator.evaluateStep (s : SphericalEvaluator)
    (w : BrowserEnv) : SphericalStyle × SphericalEvaluator :=
  match s.radius with
  | .idt i =>
      let tr := s.theta.evaluate w
      let pr := s.phi.evaluate w
      (((normalizeUnit tr.1).number, (normalizeUnit pr.1).number,
          .inr i.value),
        { s with theta := tr.2, phi := pr.2 })
  | .evble x =>
      let rr := x.evaluate w
      let tr := s.theta.evaluate w
      let pr := s.phi.evaluate w
      (((normalizeUnit tr.1).number, (normalizeUnit pr.1).number,
          .inl (normalizeUnit rr.1).number),
        { s with theta := tr.2, phi := pr.2, radius := .evble rr.2 })

/-- The inherited `Evaluator.prototype.evaluate` on a
`SphericalEvaluator`: same caching discipline as `Evaluator.evaluate`. -/
noncomputable def SphericalEvaluator.evaluate (s : SphericalEvaluator)
    (w : BrowserEnv) : SphericalStyle × SphericalEvaluator × Bool :=
  match s.lastValue, s.isConstant with
  | some v, true => (v, s, false)
  | _, _ =>
      let r := s.evaluateStep w
      (r.1, { r.2 with lastValue := some r.1 }, true)

/-! Unfolding and preservation lemmas for the evaluation functions. -/

@[simp] theorem Evaluator.lastValue_env (i : Option IdentNode)
    (l : Option NumberNode) : (Evaluator.envEvaluator i l).lastValue = l := rfl

@[simp] theorem Evaluator.lastValue_calc (s : Option SecondOrderTerm)
    (l : Option NumberNode) : (Evaluator.calcEvaluator s l).lastValue = l := rfl

@[simp] theorem Evaluator.lastValue_op (o : OperatorNode)
    (a b : Evaluatable) (l : Option NumberNode) :
    (Evaluator.operatorEvaluator o a b l).lastValue = l := rfl

@[simp] theorem Evaluator.setLast_env (i : Option IdentNode)
    (l v : Option NumberNode) : (Evaluator.envEvaluator i l).setLast v =
      .envEvaluator i v := rfl

@[simp] theorem Evaluator.setLast_calc (s : Option SecondOrderTerm)
    (l v : Option NumberNode) : (Evaluator.calcEvaluator s l).setLast v =
      .calcEvaluator s v := rfl

@[simp] theorem Evaluator.setLast_op (o : OperatorNode) (a b : Evaluatable)
    (l v : Option NumberNode) : (Evaluator.operatorEvaluator o a b l).setLast v =
      .operatorEvaluator o a b v := rfl

theorem Evaluator.lastValue_setLast (e : Evaluator)
    (v : Option NumberNode) : (e.setLast v).lastValue = v := by
  cases e <;> rfl

theorem Evaluator.isConstant_setLast (e : Evaluator)
    (v : Option NumberNode) : (e.setLast v).isConstant = e.isConstant := by
  cases e with
  | envEvaluator i l => simp [Evaluator.isConstant]
  | calcEvaluator s l => cases s <;> simp [Evaluator.isConstant]
  | operatorEvaluator o a b l => simp [Evaluator.isConstant]

/-- `evaluate` on an evaluator with an empty cache slot always runs the
node's own `[$evaluate]` step and stores the result. -/
theorem Evaluator.evaluate_uncached (e : Evaluator) (w : BrowserEnv)
    (h : e.lastValue = none) :
    e.evaluate w = ((e.evaluateStep w).1,
      (e.evaluateStep w).2.setLast (some (e.evaluateStep w).1), true) := by
  rw [Evaluator.evaluate]
  split
  · next v h1 h2 => rw [h] at h1; exact Option.noConfusion h1
  · rfl

/-- `evaluate` on a non-constant evaluator always runs the node's own
`[$evaluate]` step, whatever the cache holds. -/
theorem Evaluator.evaluate_nonconst (e : Evaluator) (w : BrowserEnv)
    (h : e.isConstant = false) :
    e.evaluate w = ((e.evaluateStep w).1,
      (e.evaluateStep w).2.setLast (some (e.evaluateStep w).1), true) := by
  rw [Evaluator.evaluate]
  split
  · next v h1 h2 => rw [h] at h2; exact Bool.noConfusion h2
  · rfl

/-- `evaluate` on a constant evaluator with a populated cache slot
returns the cached value unchanged, without running the step. -/
theorem Evaluator.evaluate_cached (e : Evaluator) (w : BrowserEnv)
    (v : NumberNode) (hl : e.lastValue = some v)
    (hc : e.isConstant = true) : e.evaluate w = (v, e, false) := by
  rw [Evaluator.evaluate]
  split
  · next v' h1 h2 =>
      rw [hl] at h1
      cases h1
      rfl
  · next h1 => exact absurd hc (by simpa using h1 v hl)

@[simp] theorem Evaluatable.evaluate_node (n : NumberNode)
    (w : BrowserEnv) : (Evaluatable.node n).evaluate w = (n, .node n) := by
  rw [Evaluatable.evaluate]

@[simp] theorem Evaluatable.evaluate_ev (e : Evaluator) (w : BrowserEnv) :
    (Evaluatable.ev e).evaluate w =
      ((e.evaluate w).1, .ev (e.evaluate w).2.1) := by
  rw [Evaluatable.evaluate]

@[simp] theorem Evaluator.evaluateStep_env (i : Option IdentNode)
    (l : Option NumberNode) (w : BrowserEnv) :
    (Evaluator.envEvaluator i l).evaluateStep w = (envEvaluateStep i w, .envEvaluator i l) := by
  rw [Evaluator.evaluateStep]

@[simp] theorem Evaluator.evaluateStep_calc_none (l : Option NumberNode)
    (w : BrowserEnv) :
    (Evaluator.calcEvaluator none l).evaluateStep w = (ZERO, .calcEvaluator none l) := by
  rw [Evaluator.evaluateStep]

@[simp] theorem Evaluator.evaluateStep_calc_opTerm (o : OperatorNode)
    (l : Option NumberNode) (w : BrowserEnv) :
    (Evaluator.calcEvaluator (some (.opTerm o)) l).evaluateStep w =
      (⟨.nan, none⟩, .calcEvaluator (some (.opTerm o)) l) := by
  rw [Evaluator.evaluateStep]

@[simp] theorem Evaluator.evaluateStep_calc_evble (x : Evaluatable)
    (l : Option NumberNode) (w : BrowserEnv) :
    (Evaluator.calcEvaluator (some (.evble x)) l).evaluateStep w =
      ((x.evaluate w).1, .calcEvaluator (some (.evble (x.evaluate w).2)) l) := by
  rw [Evaluator.evaluateStep]

@[simp] theorem Evaluator.evaluateStep_op (o : OperatorNode)
    (a b : Evaluatable) (l : Option NumberNode) (w : BrowserEnv) :
    (Evaluator.operatorEvaluator o a b l).evaluateStep w =
      (opCombine o (a.evaluate w).1 (b.evaluate w).1,
        .operatorEvaluator o (a.evaluate w).2 (b.evaluate w).2 l) := by
  rw [Evaluator.evaluateStep]

/-- The `[$evaluate]` step never touches the node's own cache slot. -/
theorem Evaluator.lastValue_evaluateStep (e : Evaluator) (w : BrowserEnv) :
    (e.evaluateStep w).2.lastValue = e.lastValue := by
  cases e with
  | envEvaluator i l => simp
  | calcEvaluator s l =>
      cases s with
      | none => simp
      | some t => cases t <;> simp
  | operatorEvaluator o a b l => simp

mutual

/-- Evaluation only rewrites cache slots: `isConstant` is unchanged. -/
theorem Evaluator.isConstant_evaluate (e : Evaluator) (w : BrowserEnv) :
    ((e.evaluate w).2.1).isConstant = e.isConstant := by
  rw [Evaluator.evaluate]
  split
  · rfl
  · show ((e.evaluateStep w).2.setLast
        (some (e.evaluateStep w).1)).isConstant = e.isConstant
    rw [Evaluator.isConstant_setLast, Evaluator.isConstant_evaluateStep]
termination_by (sizeOf e, 2)

/-- The `[$evaluate]` step only rewrites the children's cache slots:
`isConstant` is unchanged. -/
theorem Evaluator.isConstant_evaluateStep (e : Evaluator) (w : BrowserEnv) :
    ((e.evaluateStep w).2).isConstant = e.isConstant := by
  cases e with
  | envEvaluator i l => simp
  | calcEvaluator s l =>
      cases s with
      | none => simp
      | some t =>
          cases t with
          | opTerm o => simp
          | evble x =>
              simp only [Evaluator.evaluateStep_calc_evble]
              rw [Evaluator.isConstant, Evaluator.isConstant,
                SecondOrderTerm.isConstant, SecondOrderTerm.isConstant,
                Evaluatable.evaluatable_isConstant_evaluate]
  | operatorEvaluator o a b l =>
      simp only [Evaluator.evaluateStep_op]
      rw [Evaluator.isConstant, Evaluator.isConstant,
        Evaluatable.evaluatable_isConstant_evaluate, Evaluatable.evaluatable_isConstant_evaluate]
termination_by (sizeOf e, 1)

/-- The static `Evaluator.evaluate` only rewrites cache slots:
`Evaluator.isConstant` of the result is unchanged. -/
theorem Evaluatable.evaluatable_isConstant_evaluate (x : Evaluatable) (w : BrowserEnv) :
    ((x.evaluate w).2).isConstant = x.isConstant := by
  cases x with
  | node n => simp
  | ev e =>
      simp only [Evaluatable.evaluate_ev]
      rw [Evaluatable.isConstant, Evaluatable.isConstant,
        Evaluator.isConstant_evaluate]
termination_by (sizeOf x, 0)

end

/-- The `SphericalEvaluator.[$evaluate]` step never touches the node's
own cache slot. -/
theorem SphericalEvaluator.spherical_lastValue_evaluateStep (s : SphericalEvaluator)
    (w : BrowserEnv) : (s.evaluateStep w).2.lastValue = s.lastValue := by
  rw [SphericalEvaluator.evaluateStep]
  cases s.radius <;> rfl

/-- The `SphericalEvaluator.[$evaluate]` step only rewrites the stored
slots' caches: `isConstant` is unchanged. -/
theorem SphericalEvaluator.spherical_isConstant_evaluateStep (s : SphericalEvaluator)
    (w : BrowserEnv) : (s.evaluateStep w).2.isConstant = s.isConstant := by
  rw [SphericalEvaluator.evaluateStep]
  cases hr : s.radius with
  | idt i =>
      simp [SphericalEvaluator.isConstant, hr,
        Evaluatable.evaluatable_isConstant_evaluate]
  | evble x =>
      simp [SphericalEvaluator.isConstant, hr,
        Evaluatable.evaluatable_isConstant_evaluate]

/-- `evaluate` on a `SphericalEvaluator` with an empty cache slot always
runs its own `[$evaluate]` step and stores the result. -/
theorem SphericalEvaluator.spherical_evaluate_uncached (s : SphericalEvaluator)
    (w : BrowserEnv) (h : s.lastValue = none) :
    s.evaluate w = ((s.evaluateStep w).1,
      { (s.evaluateStep w).2 with lastValue := some (s.evaluateStep w).1 },
      true) := by
  rw [SphericalEvaluator.evaluate]
  split
  · next v h1 h2 => rw [h] at h1; exact Option.noConfusion h1
  · rfl

/-- `evaluate` on a non-constant `SphericalEvaluator` always runs its own
`[$evaluate]` step, whatever the cache holds. -/
theorem SphericalEvaluator.spherical_evaluate_nonconst (s : SphericalEvaluator)
    (w : BrowserEnv) (h : s.isConstant = false) :
    s.evaluate w = ((s.evaluateStep w).1,
      { (s.evaluateStep w).2 with lastValue := some (s.evaluateStep w).1 },
      true) := by
  rw [SphericalEvaluator.evaluate]
  split
  · next v h1 h2 => rw [h] at h2; exact Bool.noConfusion h2
  · rfl

/-- `evaluate` on a constant `SphericalEvaluator` with a populated cache
slot returns the cached value unchanged, without running the step. -/
theorem SphericalEvaluator.spherical_evaluate_cached (s : SphericalEvaluator)
    (w : BrowserEnv) (v : SphericalStyle) (hl : s.lastValue = some v)
    (hc : s.isConstant = true) : s.evaluate w = (v, s, false) := by
  rw [SphericalEvaluator.evaluate]
  split
  · next v' h1 h2 =>
      rw [hl] at h1
      cases h1
      rfl
  · next h1 => exact absurd hc (by simpa using h1 v hl)

mutual

/-- An evaluator tree is constant exactly when it contains no
`EnvEvaluator`. -/
theorem Evaluator.isConstant_eq_not_hasEnv (e : Evaluator) :
    e.isConstant = !e.hasEnv := by
  cases e with
  | envEvaluator i l => simp [Evaluator.isConstant, Evaluator.hasEnv]
  | calcEvaluator s l =>
      cases s with
      | none => simp [Evaluator.isConstant, Evaluator.hasEnv]
      | some t =>
          rw [Evaluator.isConstant, Evaluator.hasEnv,
            SecondOrderTerm.secondOrderTerm_isConstant_eq_not_hasEnv t]
  | operatorEvaluator o a b l =>
      rw [Evaluator.isConstant, Evaluator.hasEnv,
        Evaluatable.evaluatable_isConstant_eq_not_hasEnv a,
        Evaluatable.evaluatable_isConstant_eq_not_hasEnv b]
      cases a.hasEnv <;> cases b.hasEnv <;> rfl
termination_by (sizeOf e, 0)

/-- An evaluatable is constant exactly when it contains no
`EnvEvaluator`. -/
theorem Evaluatable.evaluatable_isConstant_eq_not_hasEnv (x : Evaluatable) :
    x.isConstant = !x.hasEnv := by
  cases x with
  | node n => simp [Evaluatable.isConstant, Evaluatable.hasEnv]
  | ev e =>
      rw [Evaluatable.isConstant, Evaluatable.hasEnv,
        Evaluator.isConstant_eq_not_hasEnv e]
termination_by (sizeOf x, 1)

/-- A stack entry is constant exactly when it contains no
`EnvEvaluator`. -/
theorem SecondOrderTerm.secondOrderTerm_isConstant_eq_not_hasEnv (t : SecondOrderTerm) :
    t.isConstant = !t.hasEnv := by
  cases t with
  | opTerm o => simp [SecondOrderTerm.isConstant, SecondOrderTerm.hasEnv]
  | evble x =>
      rw [SecondOrderTerm.isConstant, SecondOrderTerm.hasEnv,
        Evaluatable.evaluatable_isConstant_eq_not_hasEnv x]
termination_by (sizeOf t, 0)

end

/-! Claim theorems. -/

/-- C4: for every constructed evaluator tree, `isConstant` is true iff no
`EnvEvaluator` is reachable in the tree: `EnvEvaluator.isConstant` is
always false, `OperatorEvaluator`'s and `SphericalEvaluator`'s
`isConstant` are the conjunction of their operands' constancy, literal
operands are always constant, and a `CalcEvaluator` is constant iff it
has no inner tree or its inner tree is constant — so an `env()` at any
nesting depth makes the whole `calc()` non-constant. -/
theorem C4_isConstant_iff_no_env :
    (∀ (i : Option IdentNode) (l : Option NumberNode),
      (Evaluator.envEvaluator i l).isConstant = false) ∧
    (∀ (o : OperatorNode) (a b : Evaluatable) (l : Option NumberNode),
      (Evaluator.operatorEvaluator o a b l).isConstant =
        (a.isConstant && b.isConstant)) ∧
    (∀ (th ph : Evaluatable) (x : Evaluatable) (l : Option SphericalStyle),
      (SphericalEvaluator.mk th ph (.evble x) l).isConstant =
        (th.isConstant && ph.isConstant && x.isConstant)) ∧
    (∀ (th ph : Evaluatable) (i : IdentNode) (l : Option SphericalStyle),
      (SphericalEvaluator.mk th ph (.idt i) l).isConstant =
        (th.isConstant && ph.isConstant)) ∧
    (∀ n : NumberNode, (Evaluatable.node n).isConstant = true) ∧
    (∀ l : Option NumberNode,
      (Evaluator.calcEvaluator none l).isConstant = true) ∧
    (∀ (s : SecondOrderTerm) (l : Option NumberNode),
      (Evaluator.calcEvaluator (some s) l).isConstant = s.isConstant) ∧
    (∀ e : Evaluator, e.isConstant = !e.hasEnv) := by
  refine ⟨?_, ?_, ?_, ?_, ?_, ?_, ?_,
    fun e => Evaluator.isConstant_eq_not_hasEnv e⟩
  · intro i l; rw [Evaluator.isConstant]
  · intro o a b l; rw [Evaluator.isConstant]
  · intro th ph x l
    simp [SphericalEvaluator.isConstant, Bool.and_assoc]
  · intro th ph i l
    simp [SphericalEvaluator.isConstant]
  · intro n; rw [Evaluatable.isConstant]
  · intro l; rw [Evaluator.isConstant]
  · intro s l; rw [Evaluator.isConstant]

/-- C2: a constant evaluator (plain or spherical) computes its value via
its own `[$evaluate]` step exactly once — on the first call, when the
cache slot is still empty — and every later call returns the identical
cached value without running the step and without changing the evaluator
state; a non-constant evaluator runs its own step on every call. -/
theorem C2_constant_caches_once (e : Evaluator) (s : SphericalEvaluator)
    (w w1 w2 : BrowserEnv) :
    (e.isConstant = true → e.lastValue = none →
      (e.evaluate w1).2.2 = true ∧
      (e.evaluate w1).2.1.evaluate w2 =
        ((e.evaluate w1).1, (e.evaluate w1).2.1, false)) ∧
    (e.isConstant = false → (e.evaluate w).2.2 = true) ∧
    (s.isConstant = true → s.lastValue = none →
      (s.evaluate w1).2.2 = true ∧
      (s.evaluate w1).2.1.evaluate w2 =
        ((s.evaluate w1).1, (s.evaluate w1).2.1, false)) ∧
    (s.isConstant = false → (s.evaluate w).2.2 = true) := by
  refine ⟨fun hc hl => ?_, fun hnc => ?_, fun hc hl => ?_, fun hnc => ?_⟩
  · rw [Evaluator.evaluate_uncached e w1 hl]
    refine ⟨rfl, ?_⟩
    exact Evaluator.evaluate_cached _ w2 _
      (Evaluator.lastValue_setLast _ _)
      (by rw [Evaluator.isConstant_setLast,
        Evaluator.isConstant_evaluateStep]; exact hc)
  · rw [Evaluator.evaluate_nonconst e w hnc]
  · rw [SphericalEvaluator.spherical_evaluate_uncached s w1 hl]
    refine ⟨rfl, ?_⟩
    refine SphericalEvaluator.spherical_evaluate_cached _ w2 _ rfl ?_
    show SphericalEvaluator.isConstant
      { (s.evaluateStep w1).2 with lastValue := _ } = true
    rw [show ∀ t : SphericalEvaluator, ∀ v,
        SphericalEvaluator.isConstant { t with lastValue := v } =
          t.isConstant from fun t v => rfl,
      SphericalEvaluator.spherical_isConstant_evaluateStep]
    exact hc
  · rw [SphericalEvaluator.spherical_evaluate_nonconst s w hnc]

/-- C2 witness: a constant `OperatorEvaluator` over two unitless literals
caches after the first call and an `EnvEvaluator` recomputes on every
call; likewise for a constant `SphericalEvaluator` and one holding an
`env()` azimuth. -/
theorem C2_constant_caches_once_witness :
    (let e : Evaluator := .operatorEvaluator ⟨"+"⟩ (.node ⟨.fin 1, none⟩)
      (.node ⟨.fin 1, none⟩) none
     let w : BrowserEnv := ⟨0, 0, 0, 0, 0, 0, 0⟩
     (e.evaluate w).2.2 = true ∧
     (e.evaluate w).2.1.evaluate w =
       ((e.evaluate w).1, (e.evaluate w).2.1, false)) ∧
    (let w : BrowserEnv := ⟨0, 0, 0, 0, 0, 0, 0⟩
     ((Evaluator.envEvaluator none none).evaluate w).2.2 = true) ∧
    (let s : SphericalEvaluator :=
      ⟨.node ZERO, .node ZERO, .idt AUTO, none⟩
     let w : BrowserEnv := ⟨0, 0, 0, 0, 0, 0, 0⟩
     (s.evaluate w).2.2 = true ∧
     (s.evaluate w).2.1.evaluate w =
       ((s.evaluate w).1, (s.evaluate w).2.1, false)) ∧
    (let s : SphericalEvaluator :=
      ⟨.ev (.envEvaluator none none), .node ZERO, .idt AUTO, none⟩
     let w : BrowserEnv := ⟨0, 0, 0, 0, 0, 0, 0⟩
     (s.evaluate w).2.2 = true) := by
  refine ⟨?_, ?_, ?_, ?_⟩
  · exact (C2_constant_caches_once
      (.operatorEvaluator ⟨"+"⟩ (.node ⟨.fin 1, none⟩)
        (.node ⟨.fin 1, none⟩) none)
      ⟨.node ZERO, .node ZERO, .idt AUTO, none⟩
      ⟨0, 0, 0, 0, 0, 0, 0⟩ ⟨0, 0, 0, 0, 0, 0, 0⟩ ⟨0, 0, 0, 0, 0, 0, 0⟩).1
      (by simp [Evaluator.isConstant, Evaluatable.isConstant]) rfl
  · exact (C2_constant_caches_once (.envEvaluator none none)
      ⟨.node ZERO, .node ZERO, .idt AUTO, none⟩
      ⟨0, 0, 0, 0, 0, 0, 0⟩ ⟨0, 0, 0, 0, 0, 0, 0⟩ ⟨0, 0, 0, 0, 0, 0, 0⟩).2.1
      (by simp [Evaluator.isConstant])
  · exact (C2_constant_caches_once (.envEvaluator none none)
      ⟨.node ZERO, .node ZERO, .idt AUTO, none⟩
      ⟨0, 0, 0, 0, 0, 0, 0⟩ ⟨0, 0, 0, 0, 0, 0, 0⟩
      ⟨0, 0, 0, 0, 0, 0, 0⟩).2.2.1
      (by simp [SphericalEvaluator.isConstant, Evaluatable.isConstant])
      rfl
  · exact (C2_constant_caches_once (.envEvaluator none none)
      ⟨.ev (.envEvaluator none none), .node ZERO, .idt AUTO, none⟩
      ⟨0, 0, 0, 0, 0, 0, 0⟩ ⟨0, 0, 0, 0, 0, 0, 0⟩
      ⟨0, 0, 0, 0, 0, 0, 0⟩).2.2.2
      (by simp [SphericalEvaluator.isConstant, Evaluatable.isConstant,
        Evaluator.isConstant])

/-- The mismatched-units branch of `OperatorEvaluator.[$evaluate]`. -/
theorem opCombine_mismatch (o : OperatorNode) (lN rN : NumberNode)
    (u v : String) (hl : (normalizeUnit lN).unit = some u)
    (hr : (normalizeUnit rN).unit = some v) (huv : u ≠ v) :
    opCombine o lN rN = ZERO := by
  rw [opCombine]
  simp only [hl, hr]
  rw [if_pos]
  exact ⟨Option.some_ne_none v, Option.some_ne_none u,
    by simp [Ne.symm huv]⟩

/-- C5: for every operator and every pair of operands whose evaluated
results normalize to two non-null, different units, the
`OperatorEvaluator` evaluates to the zero sentinel. -/
theorem C5_mismatched_units_zero (o : OperatorNode) (a b : Evaluatable)
    (w : BrowserEnv) (u v : String)
    (hl : (normalizeUnit (a.evaluate w).1).unit = some u)
    (hr : (normalizeUnit (b.evaluate w).1).unit = some v)
    (huv : u ≠ v) :
    ((Evaluator.operatorEvaluator o a b none).evaluate w).1 = ZERO := by
  rw [Evaluator.evaluate_uncached (.operatorEvaluator o a b none) w rfl]
  simp only [Evaluator.evaluateStep_op]
  exact opCombine_mismatch o _ _ u v hl hr huv

/-- C5 witness: `(1, 'm') + (1, 'rad')` evaluates to `(0, null)`. -/
theorem C5_mismatched_units_zero_witness :
    ((Evaluator.operatorEvaluator ⟨"+"⟩ (.node ⟨.fin 1, some "m"⟩)
      (.node ⟨.fin 1, some "rad"⟩) none).evaluate
        ⟨0, 0, 0, 0, 0, 0, 0⟩).1 = ZERO :=
  C5_mismatched_units_zero ⟨"+"⟩ (.node ⟨.fin 1, some "m"⟩)
    (.node ⟨.fin 1, some "rad"⟩) ⟨0, 0, 0, 0, 0, 0, 0⟩ "m" "rad"
    (by simp [normalizeUnit]) (by simp [normalizeUnit]) (by decide)

/-- C6: `OperatorEvaluator.[$evaluate]` normalizes both operand results
before applying the operator and the result carries whichever normalized
unit is non-null: `(1, 'm') + (1000, 'mm')` is `(2, 'm')` and
`(180, 'deg') + (π, 'rad')` is `(2π, 'rad')`; in general, whenever the
mismatch check passes, `+` adds the normalized numbers under the first
non-null normalized unit. -/
theorem C6_normalized_operands :
    (∀ w : BrowserEnv,
      ((Evaluator.operatorEvaluator ⟨"+"⟩ (.node ⟨.fin 1, some "m"⟩)
        (.node ⟨.fin 1000, some "mm"⟩) none).evaluate w).1 =
        ⟨.fin 2, some "m"⟩) ∧
    (∀ w : BrowserEnv,
      ((Evaluator.operatorEvaluator ⟨"+"⟩ (.node ⟨.fin 180, some "deg"⟩)
        (.node ⟨.fin Real.pi, some "rad"⟩) none).evaluate w).1 =
        ⟨.fin (2 * Real.pi), some "rad"⟩) ∧
    (∀ lN rN : NumberNode,
      ¬((normalizeUnit rN).unit ≠ none ∧ (normalizeUnit lN).unit ≠ none ∧
        (normalizeUnit rN).unit ≠ (normalizeUnit lN).unit) →
      opCombine ⟨"+"⟩ lN rN =
        ⟨(normalizeUnit lN).number.add (normalizeUnit rN).number,
          (normalizeUnit lN).unit.orElse fun _ => (normalizeUnit rN).unit⟩) := by
  refine ⟨fun w => ?_, fun w => ?_, fun lN rN h => ?_⟩
  · rw [Evaluator.evaluate_uncached (.operatorEvaluator ⟨"+"⟩
      (.node ⟨.fin 1, some "m"⟩) (.node ⟨.fin 1000, some "mm"⟩) none) w rfl]
    simp only [Evaluator.evaluateStep_op, Evaluatable.evaluate_node]
    rw [opCombine]
    simp [normalizeUnit]
    norm_num
  · rw [Evaluator.evaluate_uncached (.operatorEvaluator ⟨"+"⟩
      (.node ⟨.fin 180, some "deg"⟩) (.node ⟨.fin Real.pi, some "rad"⟩)
      none) w rfl]
    simp only [Evaluator.evaluateStep_op, Evaluatable.evaluate_node]
    rw [opCombine]
    simp [normalizeUnit]
    ring
  · rw [opCombine, if_neg h]
    simp

/-- C6 witness: two unitless `1`s pass the mismatch check and add to an
unitless `2`. -/
theorem C6_normalized_operands_witness :
    opCombine ⟨"+"⟩ ⟨.fin 1, none⟩ ⟨.fin 1, none⟩ =
      ⟨(normalizeUnit ⟨.fin 1, none⟩).number.add
        (normalizeUnit ⟨.fin 1, none⟩).number,
        (normalizeUnit ⟨.fin 1, none⟩).unit.orElse fun _ =>
          (normalizeUnit ⟨.fin 1, none⟩).unit⟩ :=
  C6_normalized_operands.2.2 ⟨.fin 1, none⟩ ⟨.fin 1, none⟩
    (by simp [normalizeUnit])

/-- C7 counterexample: with identifier `window-scroll-y`, a page offset
of `1` and all heights equal to the viewport height (so the divisor
`verticalScrollMax - innerHeight` is `0`), the quotient `1 / 0` is
`Infinity`, which is truthy and thus NOT guarded to `0` by `|| 0`: the
evaluator returns an infinite number node, not the zero sentinel. -/
theorem C7_counterexample :
    scrollExtent ⟨1, 100, 100, 100, 100, 100, 100⟩ -
      (⟨1, 100, 100, 100, 100, 100, 100⟩ : BrowserEnv).innerHeight = 0 ∧
    ((Evaluator.envEvaluator (some ⟨"window-scroll-y"⟩) none).evaluate
      ⟨1, 100, 100, 100, 100, 100, 100⟩).1 = ⟨.posInf, none⟩ ∧
    ((Evaluator.envEvaluator (some ⟨"window-scroll-y"⟩) none).evaluate
      ⟨1, 100, 100, 100, 100, 100, 100⟩).1 ≠ ZERO := by
  have hd : scrollExtent ⟨1, 100, 100, 100, 100, 100, 100⟩ -
      (⟨1, 100, 100, 100, 100, 100, 100⟩ : BrowserEnv).innerHeight = 0 := by
    simp [scrollExtent]
  have hval : ((Evaluator.envEvaluator (some ⟨"window-scroll-y"⟩)
      none).evaluate ⟨1, 100, 100, 100, 100, 100, 100⟩).1 =
      ⟨.posInf, none⟩ := by
    rw [Evaluator.evaluate_nonconst _ _ (by rw [Evaluator.isConstant])]
    simp only [Evaluator.evaluateStep_env]
    rw [envEvaluateStep]
    simp only [if_pos rfl, hd]
    rw [JSNum.div_fin_zero_pos (by norm_num : (0:ℝ) < 1)]
    rfl
  refine ⟨hd, hval, ?_⟩
  rw [hval]
  simp [ZERO]

/-- C7 (amended): `EnvEvaluator` is never constant; with no stored
identifier or any identifier other than `window-scroll-y` it evaluates to
the zero sentinel; with `window-scroll-y` it returns
`pageYOffset / (verticalScrollMax - innerHeight)` as a unitless number,
where only a falsy quotient (`0`, or the NaN of `0 / 0`) is guarded to
`0` — a nonzero offset over a zero divisor yields an unguarded signed
infinity. -/
theorem C7_env_evaluation :
    (∀ (l : Option NumberNode) (w : BrowserEnv),
      ((Evaluator.envEvaluator none l).evaluate w).1 = ZERO) ∧
    (∀ (i : IdentNode) (l : Option NumberNode) (w : BrowserEnv),
      i.value ≠ "window-scroll-y" →
      ((Evaluator.envEvaluator (some i) l).evaluate w).1 = ZERO) ∧
    (∀ (idt : Option IdentNode) (l : Option NumberNode),
      (Evaluator.envEvaluator idt l).isConstant = false) ∧
    (∀ (l : Option NumberNode) (w : BrowserEnv),
      scrollExtent w - w.innerHeight ≠ 0 →
      ((Evaluator.envEvaluator (some ⟨"window-scroll-y"⟩) l).evaluate w).1 =
        ⟨.fin (w.pageYOffset / (scrollExtent w - w.innerHeight)), none⟩) ∧
    (∀ (l : Option NumberNode) (w : BrowserEnv),
      scrollExtent w - w.innerHeight = 0 → w.pageYOffset = 0 →
      ((Evaluator.envEvaluator (some ⟨"window-scroll-y"⟩) l).evaluate w).1 =
        ZERO) ∧
    (∀ (l : Option NumberNode) (w : BrowserEnv),
      scrollExtent w - w.innerHeight = 0 → 0 < w.pageYOffset →
      ((Evaluator.envEvaluator (some ⟨"window-scroll-y"⟩) l).evaluate w).1 =
        ⟨.posInf, none⟩) := by
  have hstep : ∀ (idt : Option IdentNode) (l : Option NumberNode)
      (w : BrowserEnv), ((Evaluator.envEvaluator idt l).evaluate w).1 =
        envEvaluateStep idt w := by
    intro idt l w
    rw [Evaluator.evaluate_nonconst _ _ (by rw [Evaluator.isConstant])]
    simp only [Evaluator.evaluateStep_env]
  refine ⟨fun l w => ?_, fun i l w hi => ?_, fun idt l => ?_,
    fun l w hd => ?_, fun l w hd hp => ?_, fun l w hd hp => ?_⟩
  · rw [hstep, envEvaluateStep]
  · rw [hstep, envEvaluateStep]
    simp [hi]
  · rw [Evaluator.isConstant]
  · rw [hstep, envEvaluateStep]
    simp only [if_pos rfl]
    rw [JSNum.div_fin_of_ne _ hd, JSNum.orZero_fin]
    simp
  · rw [hstep, envEvaluateStep]
    simp only [if_pos rfl, hd, hp]
    rw [show JSNum.div (.fin 0) (.fin 0) = .nan by simp [JSNum.div]]
    rfl
  · rw [hstep, envEvaluateStep]
    simp only [if_pos rfl, hd]
    rw [JSNum.div_fin_zero_pos hp]
    rfl

/-- C7 witness: concrete browser states exercising the unknown-identifier
branch, the regular quotient, the NaN guard and the unguarded infinity. -/
theorem C7_env_evaluation_witness :
    ((Evaluator.envEvaluator none none).evaluate
      ⟨0, 0, 0, 0, 0, 0, 0⟩).1 = ZERO ∧
    ((Evaluator.envEvaluator (some ⟨"safe-area-inset-top"⟩) none).evaluate
      ⟨0, 0, 0, 0, 0, 0, 0⟩).1 = ZERO ∧
    (Evaluator.envEvaluator (some ⟨"window-scroll-y"⟩) none).isConstant =
      false ∧
    ((Evaluator.envEvaluator (some ⟨"window-scroll-y"⟩) none).evaluate
      ⟨10, 30, 0, 0, 0, 0, 10⟩).1 =
      ⟨.fin ((10 : ℝ) / (scrollExtent ⟨10, 30, 0, 0, 0, 0, 10⟩ - 10)),
        none⟩ ∧
    ((Evaluator.envEvaluator (some ⟨"window-scroll-y"⟩) none).evaluate
      ⟨0, 5, 5, 5, 5, 5, 5⟩).1 = ZERO := by
  refine ⟨C7_env_evaluation.1 none ⟨0, 0, 0, 0, 0, 0, 0⟩,
    C7_env_evaluation.2.1 ⟨"safe-area-inset-top"⟩ none
      ⟨0, 0, 0, 0, 0, 0, 0⟩ (by decide),
    C7_env_evaluation.2.2.1 (some ⟨"window-scroll-y"⟩) none,
    C7_env_evaluation.2.2.2.1 none ⟨10, 30, 0, 0, 0, 0, 10⟩
      (by simp [scrollExtent]; norm_num),
    C7_env_evaluation.2.2.2.2.1 none ⟨0, 5, 5, 5, 5, 5, 5⟩
      (by simp [scrollExtent]) rfl⟩

/-- C1 counterexample: `Evaluator.evaluatableFor` on a bare `IdentNode`
reaches `switch ((node as FunctionNode).name.value)` and throws a
`TypeError` (`.name` of an `IdentNode` is `undefined`); hence
`CalcEvaluator` construction also throws when an identifier term is
pushed through `evaluatableFor`: the dispatch is not total on
`ExpressionTerm`. -/
theorem C1_counterexample :
    evaluatableFor (.ident ⟨"auto"⟩) = .error .typeError ∧
    evaluatableFor (.op ⟨"+"⟩) = .error .typeError ∧
    CalcEvaluator.construct [[.ident ⟨"auto"⟩]] = .error .typeError := by
  refine ⟨by rw [evaluatableFor], by rw [evaluatableFor], ?_⟩
  rw [CalcEvaluator.construct, multiplicativePass]
  simp [pushRaw, evaluatableFor, Bind.bind, Except.bind]

/-- C1 (amended): `Evaluator.evaluatableFor` returns without throwing on
`NumberNode` terms (unchanged), on `env` function terms (a fresh
`EnvEvaluator`) and on function terms with any other unrecognised name
(silent degradation to the zero sentinel); on an `IdentNode` or
`OperatorNode` term it throws a `TypeError`, and a `calc` function term
propagates whatever its `CalcEvaluator` construction produces. -/
theorem C1_evaluatableFor_dispatch :
    (∀ n : NumberNode, evaluatableFor (.num n) = .ok (.node n)) ∧
    (∀ i : IdentNode, evaluatableFor (.ident i) = .error .typeError) ∧
    (∀ o : OperatorNode, evaluatableFor (.op o) = .error .typeError) ∧
    (∀ (name : IdentNode) (args : List (List ExpressionTerm)),
      name.value = "env" →
      evaluatableFor (.func name args) =
        .ok (.ev (.envEvaluator (EnvEvaluator.construct args) none))) ∧
    (∀ (name : IdentNode) (args : List (List ExpressionTerm)),
      name.value = "calc" →
      evaluatableFor (.func name args) =
        (CalcEvaluator.construct args).map fun s =>
          .ev (.calcEvaluator s none)) ∧
    (∀ (name : IdentNode) (args : List (List ExpressionTerm)),
      name.value ≠ "calc" → name.value ≠ "env" →
      evaluatableFor (.func name args) = .ok (.node ZERO)) := by
  refine ⟨fun n => by rw [evaluatableFor], fun i => by rw [evaluatableFor],
    fun o => by rw [evaluatableFor], fun name args h => ?_,
    fun name args h => ?_, fun name args h1 h2 => ?_⟩
  · rw [evaluatableFor]
    have hne : name.value ≠ "calc" := by rw [h]; decide
    simp [h, hne]
  · rw [evaluatableFor]
    simp [h]
  · rw [evaluatableFor]
    simp [h1, h2]

/-- C1 witness: the dispatch lemma applied to the number `7`, the
identifier `auto`, the operator `*`, an `env()` call, a `calc()` call and
a `var()` call. -/
theorem C1_evaluatableFor_dispatch_witness :
    evaluatableFor (.num ⟨.fin 7, none⟩) = .ok (.node ⟨.fin 7, none⟩) ∧
    evaluatableFor (.ident ⟨"auto"⟩) = .error .typeError ∧
    evaluatableFor (.op ⟨"*"⟩) = .error .typeError ∧
    evaluatableFor (.func ⟨"env"⟩ []) =
      .ok (.ev (.envEvaluator (EnvEvaluator.construct []) none)) ∧
    evaluatableFor (.func ⟨"calc"⟩ []) =
      (CalcEvaluator.construct []).map
        (fun s => .ev (.calcEvaluator s none)) ∧
    evaluatableFor (.func ⟨"var"⟩ [[.ident ⟨"x"⟩]]) = .ok (.node ZERO) :=
  ⟨C1_evaluatableFor_dispatch.1 ⟨.fin 7, none⟩,
    C1_evaluatableFor_dispatch.2.1 ⟨"auto"⟩,
    C1_evaluatableFor_dispatch.2.2.1 ⟨"*"⟩,
    C1_evaluatableFor_dispatch.2.2.2.1 ⟨"env"⟩ [] rfl,
    C1_evaluatableFor_dispatch.2.2.2.2.1 ⟨"calc"⟩ [] rfl,
    C1_evaluatableFor_dispatch.2.2.2.2.2 ⟨"var"⟩ [[.ident ⟨"x"⟩]]
      (by decide) (by decide)⟩

@[simp] theorem isMultiplication_plus : isMultiplication ⟨"+"⟩ = false := by
  decide

@[simp] theorem isMultiplication_minus : isMultiplication ⟨"-"⟩ = false := by
  decide

@[simp] theorem isMultiplication_star : isMultiplication ⟨"*"⟩ = true := by
  decide

@[simp] theorem isMultiplication_slash : isMultiplication ⟨"/"⟩ = true := by
  decide

/-- C8: a `CalcEvaluator` built from a function node whose argument count
is not exactly one, or whose term list fails reduction — a `*`/`/`
operator with no left operand below it on the stack, a non-operator
middle entry in the additive pass, or a final stack that does not have
exactly one entry — holds no inner tree, and a `CalcEvaluator` without an
inner tree evaluates to the zero sentinel. -/
theorem C8_failed_construction_zero :
    (∀ args : List (List ExpressionTerm), args.length ≠ 1 →
      CalcEvaluator.construct args = .ok none) ∧
    (∀ (t : ExpressionTerm) (rest : List ExpressionTerm) (o : OperatorNode),
      isMultiplication o = true →
      multiplicativePass (t :: rest) [.opTerm o] = .ok none) ∧
    (∀ terms : List ExpressionTerm,
      multiplicativePass terms [] = .ok none →
      CalcEvaluator.construct [terms] = .ok none) ∧
    (∀ (a : SecondOrderTerm) (x : Evaluatable) (c : SecondOrderTerm)
      (rest : List SecondOrderTerm),
      additivePass (a :: .evble x :: c :: rest) = .ok none) ∧
    (∀ (terms : List ExpressionTerm) (s : List SecondOrderTerm),
      multiplicativePass terms [] = .ok (some s) →
      additivePass s = .ok none →
      CalcEvaluator.construct [terms] = .ok none) ∧
    (∀ (terms : List ExpressionTerm) (s s2 : List SecondOrderTerm),
      multiplicativePass terms [] = .ok (some s) →
      additivePass s = .ok (some s2) → s2.length ≠ 1 →
      CalcEvaluator.construct [terms] = .ok none) ∧
    (∀ w : BrowserEnv,
      ((Evaluator.calcEvaluator none none).evaluate w).1 = ZERO) := by
  refine ⟨fun args h => ?_, fun t rest o h => ?_, fun terms h => ?_,
    fun a x c rest => ?_, fun terms s h1 h2 => ?_,
    fun terms s s2 h1 h2 h3 => ?_, fun w => ?_⟩
  · match args with
    | [] => simp [CalcEvaluator.construct]
    | [terms] => simp at h
    | a :: b :: rest => simp [CalcEvaluator.construct]
  · rw [multiplicativePass]
    simp [h]
  · rw [CalcEvaluator.construct]
    simp [h, Bind.bind, Except.bind]
  · simp [additivePass]
  · rw [CalcEvaluator.construct]
    simp [h1, h2, Bind.bind, Except.bind]
  · rw [CalcEvaluator.construct]
    simp only [h1, h2, Bind.bind, Except.bind]
    match s2, h3 with
    | [], _ => rfl
    | [x], h3 => simp at h3
    | a :: b :: rest, _ => rfl
  · rw [Evaluator.evaluate_uncached (.calcEvaluator none none) w rfl]
    simp only [Evaluator.evaluateStep_calc_none]

/-- C8 witness: `calc` with two arguments, `calc(* 2)` (multiplication
with no left operand), `calc(1 2 3)` (non-operator middle entry),
`calc(1 +)` (two entries remain), and the zero evaluation of an
inner-tree-less `CalcEvaluator`. -/
theorem C8_failed_construction_zero_witness :
    CalcEvaluator.construct [[], []] = .ok none ∧
    multiplicativePass [ExpressionTerm.num ⟨.fin 2, none⟩]
      [.opTerm ⟨"*"⟩] = .ok none ∧
    CalcEvaluator.construct [[.op ⟨"*"⟩, .num ⟨.fin 2, none⟩]] =
      .ok none ∧
    additivePass [.evble (.node ⟨.fin 1, none⟩),
      .evble (.node ⟨.fin 2, none⟩), .evble (.node ⟨.fin 3, none⟩)] =
      .ok none ∧
    CalcEvaluator.construct [[.num ⟨.fin 1, none⟩, .num ⟨.fin 2, none⟩,
      .num ⟨.fin 3, none⟩]] = .ok none ∧
    CalcEvaluator.construct [[.num ⟨.fin 1, none⟩, .op ⟨"+"⟩]] =
      .ok none ∧
    ((Evaluator.calcEvaluator none none).evaluate
      ⟨0, 0, 0, 0, 0, 0, 0⟩).1 = ZERO := by
  refine ⟨C8_failed_construction_zero.1 [[], []] (by decide),
    C8_failed_construction_zero.2.1 (.num ⟨.fin 2, none⟩) [] ⟨"*"⟩
      (by decide),
    C8_failed_construction_zero.2.2.1 [.op ⟨"*"⟩, .num ⟨.fin 2, none⟩]
      ?_,
    C8_failed_construction_zero.2.2.2.1 (.evble (.node ⟨.fin 1, none⟩))
      (.node ⟨.fin 2, none⟩) (.evble (.node ⟨.fin 3, none⟩)) [],
    C8_failed_construction_zero.2.2.2.2.1 [.num ⟨.fin 1, none⟩,
      .num ⟨.fin 2, none⟩, .num ⟨.fin 3, none⟩]
      [.evble (.node ⟨.fin 1, none⟩), .evble (.node ⟨.fin 2, none⟩),
        .evble (.node ⟨.fin 3, none⟩)] ?_ ?_,
    C8_failed_construction_zero.2.2.2.2.2.1 [.num ⟨.fin 1, none⟩,
      .op ⟨"+"⟩] [.evble (.node ⟨.fin 1, none⟩), .opTerm ⟨"+"⟩]
      [.evble (.node ⟨.fin 1, none⟩), .opTerm ⟨"+"⟩] ?_ ?_ (by decide),
    C8_failed_construction_zero.2.2.2.2.2.2 ⟨0, 0, 0, 0, 0, 0, 0⟩⟩
  · simp [multiplicativePass, pushRaw, evaluatableFor, Bind.bind,
      Except.bind, List.getLast?, List.dropLast]
  · simp [multiplicativePass, pushRaw, evaluatableFor, Bind.bind,
      Except.bind, List.getLast?, List.dropLast]
  · simp [additivePass]
  · simp [multiplicativePass, pushRaw, evaluatableFor, Bind.bind,
      Except.bind, List.getLast?, List.dropLast]
  · simp [additivePass]

theorem opCombine_plus_fin (x y : ℝ) :
    opCombine ⟨"+"⟩ ⟨.fin x, none⟩ ⟨.fin y, none⟩ =
      ⟨.fin (x + y), none⟩ := by
  rw [opCombine]
  simp [normalizeUnit]

theorem opCombine_minus_fin (x y : ℝ) :
    opCombine ⟨"-"⟩ ⟨.fin x, none⟩ ⟨.fin y, none⟩ =
      ⟨.fin (x - y), none⟩ := by
  rw [opCombine]
  simp [normalizeUnit, JSNum.sub, JSNum.neg, JSNum.add, sub_eq_add_neg]

theorem opCombine_star_fin (x y : ℝ) :
    opCombine ⟨"*"⟩ ⟨.fin x, none⟩ ⟨.fin y, none⟩ =
      ⟨.fin (x * y), none⟩ := by
  rw [opCombine]
  simp [normalizeUnit]

theorem opCombine_slash_fin (x : ℝ) {y : ℝ} (hy : y ≠ 0) :
    opCombine ⟨"/"⟩ ⟨.fin x, none⟩ ⟨.fin y, none⟩ =
      ⟨.fin (x / y), none⟩ := by
  rw [opCombine]
  simp [normalizeUnit, JSNum.div_fin_of_ne _ hy]

/-- The value computed by a freshly built `OperatorEvaluator`. -/
@[simp] theorem Evaluator.op_evaluate_value (o : OperatorNode)
    (a b : Evaluatable) (w : BrowserEnv) :
    ((Evaluator.operatorEvaluator o a b none).evaluate w).1 =
      opCombine o (a.evaluate w).1 (b.evaluate w).1 := by
  rw [Evaluator.evaluate_uncached (.operatorEvaluator o a b none) w rfl]
  simp only [Evaluator.evaluateStep_op]

/-- The value computed by a freshly built `CalcEvaluator` whose inner
slot holds an evaluatable. -/
theorem Evaluator.calc_evble_evaluate_value (x : Evaluatable)
    (w : BrowserEnv) :
    ((Evaluator.calcEvaluator (some (.evble x)) none).evaluate w).1 =
      (x.evaluate w).1 := by
  rw [Evaluator.evaluate_uncached (.calcEvaluator (some (.evble x)) none)
    w rfl]
  simp only [Evaluator.evaluateStep_calc_evble]
theorem multiplicativePass_nil (stack : List SecondOrderTerm) :
    multiplicativePass [] stack = .ok (some stack) := by
  rw [multiplicativePass]

theorem multiplicativePass_num_empty (n : NumberNode)
    (rest : List ExpressionTerm) :
    multiplicativePass (.num n :: rest) [] =
      multiplicativePass rest [.evble (.node n)] := by
  simp [multiplicativePass, pushRaw, evaluatableFor, Bind.bind,
    Except.bind]

theorem multiplicativePass_op_after_evble (o : OperatorNode)
    (rest : List ExpressionTerm) (pre : List SecondOrderTerm)
    (x : Evaluatable) :
    multiplicativePass (.op o :: rest) (pre ++ [.evble x]) =
      multiplicativePass rest (pre ++ [.evble x, .opTerm o]) := by
  simp [multiplicativePass, pushRaw, List.getLast?_concat,
    List.append_assoc]

theorem multiplicativePass_num_after_op (n : NumberNode)
    (rest : List ExpressionTerm) (pre : List SecondOrderTerm)
    (o : OperatorNode) (hm : isMultiplication o = false) :
    multiplicativePass (.num n :: rest) (pre ++ [.opTerm o]) =
      multiplicativePass rest (pre ++ [.opTerm o, .evble (.node n)]) := by
  simp [multiplicativePass, pushRaw, evaluatableFor, hm,
    List.getLast?_concat, List.append_assoc, Bind.bind, Except.bind]

theorem multiplicativePass_collapse_num (n : NumberNode)
    (rest : List ExpressionTerm) (pre : List SecondOrderTerm)
    (left : Evaluatable) (o : OperatorNode)
    (hm : isMultiplication o = true) :
    multiplicativePass (.num n :: rest)
        (pre ++ [.evble left, .opTerm o]) =
      multiplicativePass rest
        (pre ++ [.evble (.ev (.operatorEvaluator o left (.node n)
          none))]) := by
  have h2 : pre ++ [SecondOrderTerm.evble left, .opTerm o] =
      (pre ++ [.evble left]) ++ [.opTerm o] := by simp
  rw [h2, multiplicativePass]
  simp [List.getLast?_concat, List.dropLast_concat, hm,
    evaluatableForSO, evaluatableFor, Bind.bind, Except.bind]

theorem additivePass_step (l : Evaluatable) (o : OperatorNode)
    (r : Evaluatable) (rest : List SecondOrderTerm) :
    additivePass (.evble l :: .opTerm o :: .evble r :: rest) =
      additivePass (.evble (.ev (.operatorEvaluator o l r none)) ::
        rest) := by
  rw [additivePass]
  simp [evaluatableForSO, Bind.bind, Except.bind]

theorem additivePass_single (x : SecondOrderTerm) :
    additivePass [x] = .ok (some [x]) := by
  simp [additivePass]

theorem construct_of_passes (terms : List ExpressionTerm)
    (s : List SecondOrderTerm) (x : SecondOrderTerm)
    (h1 : multiplicativePass terms [] = .ok (some s))
    (h2 : additivePass s = .ok (some [x])) :
    CalcEvaluator.construct [terms] = .ok (some x) := by
  rw [CalcEvaluator.construct]
  simp [h1, h2, Bind.bind, Except.bind]


/-- C3: building a `CalcEvaluator` from the flat term list
`1 + 2 * 2.5 - -2 / -1` eagerly collapses each `*`/`/` with its
neighbours during the first pass (producing `2 * 2.5` and `-2 / -1` as
subtrees before any `+`/`-` is considered) and then folds the remaining
additive operators strictly left-to-right, giving
`(1 + (2 * 2.5)) - (-2 / -1)`, which evaluates to `(4, null)`. -/
theorem C3_calc_precedence :
    CalcEvaluator.construct [[.num ⟨.fin 1, none⟩, .op ⟨"+"⟩,
      .num ⟨.fin 2, none⟩, .op ⟨"*"⟩, .num ⟨.fin 2.5, none⟩,
      .op ⟨"-"⟩, .num ⟨.fin (-2), none⟩, .op ⟨"/"⟩,
      .num ⟨.fin (-1), none⟩]] =
      .ok (some (.evble (.ev (.operatorEvaluator ⟨"-"⟩
        (.ev (.operatorEvaluator ⟨"+"⟩ (.node ⟨.fin 1, none⟩)
          (.ev (.operatorEvaluator ⟨"*"⟩ (.node ⟨.fin 2, none⟩)
            (.node ⟨.fin 2.5, none⟩) none)) none))
        (.ev (.operatorEvaluator ⟨"/"⟩ (.node ⟨.fin (-2), none⟩)
          (.node ⟨.fin (-1), none⟩) none)) none)))) ∧
    (∀ w : BrowserEnv,
      ((Evaluator.calcEvaluator (some (.evble (.ev (.operatorEvaluator ⟨"-"⟩
        (.ev (.operatorEvaluator ⟨"+"⟩ (.node ⟨.fin 1, none⟩)
          (.ev (.operatorEvaluator ⟨"*"⟩ (.node ⟨.fin 2, none⟩)
            (.node ⟨.fin 2.5, none⟩) none)) none))
        (.ev (.operatorEvaluator ⟨"/"⟩ (.node ⟨.fin (-2), none⟩)
          (.node ⟨.fin (-1), none⟩) none)) none)))) none).evaluate w).1 =
        ⟨.fin 4, none⟩) := by
  constructor
  · refine construct_of_passes _
      [.evble (.node ⟨.fin 1, none⟩), .opTerm ⟨"+"⟩,
        .evble (.ev (.operatorEvaluator ⟨"*"⟩ (.node ⟨.fin 2, none⟩)
          (.node ⟨.fin 2.5, none⟩) none)), .opTerm ⟨"-"⟩,
        .evble (.ev (.operatorEvaluator ⟨"/"⟩ (.node ⟨.fin (-2), none⟩)
          (.node ⟨.fin (-1), none⟩) none))] _ ?_ ?_
    · calc
        multiplicativePass [.num ⟨.fin 1, none⟩, .op ⟨"+"⟩,
            .num ⟨.fin 2, none⟩, .op ⟨"*"⟩, .num ⟨.fin 2.5, none⟩,
            .op ⟨"-"⟩, .num ⟨.fin (-2), none⟩, .op ⟨"/"⟩,
            .num ⟨.fin (-1), none⟩] []
          = multiplicativePass [.op ⟨"+"⟩, .num ⟨.fin 2, none⟩,
              .op ⟨"*"⟩, .num ⟨.fin 2.5, none⟩, .op ⟨"-"⟩,
              .num ⟨.fin (-2), none⟩, .op ⟨"/"⟩,
              .num ⟨.fin (-1), none⟩]
              [.evble (.node ⟨.fin 1, none⟩)] :=
            multiplicativePass_num_empty _ _
        _ = multiplicativePass [.num ⟨.fin 2, none⟩, .op ⟨"*"⟩,
              .num ⟨.fin 2.5, none⟩, .op ⟨"-"⟩,
              .num ⟨.fin (-2), none⟩, .op ⟨"/"⟩,
              .num ⟨.fin (-1), none⟩]
              [.evble (.node ⟨.fin 1, none⟩), .opTerm ⟨"+"⟩] :=
            multiplicativePass_op_after_evble ⟨"+"⟩ _ [] _
        _ = multiplicativePass [.op ⟨"*"⟩, .num ⟨.fin 2.5, none⟩,
              .op ⟨"-"⟩, .num ⟨.fin (-2), none⟩, .op ⟨"/"⟩,
              .num ⟨.fin (-1), none⟩]
              [.evble (.node ⟨.fin 1, none⟩), .opTerm ⟨"+"⟩,
                .evble (.node ⟨.fin 2, none⟩)] :=
            multiplicativePass_num_after_op _ _
              [.evble (.node ⟨.fin 1, none⟩)] ⟨"+"⟩ (by simp)
        _ = multiplicativePass [.num ⟨.fin 2.5, none⟩, .op ⟨"-"⟩,
              .num ⟨.fin (-2), none⟩, .op ⟨"/"⟩,
              .num ⟨.fin (-1), none⟩]
              [.evble (.node ⟨.fin 1, none⟩), .opTerm ⟨"+"⟩,
                .evble (.node ⟨.fin 2, none⟩), .opTerm ⟨"*"⟩] :=
            multiplicativePass_op_after_evble ⟨"*"⟩ _
              [.evble (.node ⟨.fin 1, none⟩), .opTerm ⟨"+"⟩] _
        _ = multiplicativePass [.op ⟨"-"⟩, .num ⟨.fin (-2), none⟩,
              .op ⟨"/"⟩, .num ⟨.fin (-1), none⟩]
              [.evble (.node ⟨.fin 1, none⟩), .opTerm ⟨"+"⟩,
                .evble (.ev (.operatorEvaluator ⟨"*"⟩
                  (.node ⟨.fin 2, none⟩) (.node ⟨.fin 2.5, none⟩)
                  none))] :=
            multiplicativePass_collapse_num _ _
              [.evble (.node ⟨.fin 1, none⟩), .opTerm ⟨"+"⟩]
              (.node ⟨.fin 2, none⟩) ⟨"*"⟩ (by simp)
        _ = multiplicativePass [.num ⟨.fin (-2), none⟩, .op ⟨"/"⟩,
              .num ⟨.fin (-1), none⟩]
              [.evble (.node ⟨.fin 1, none⟩), .opTerm ⟨"+"⟩,
                .evble (.ev (.operatorEvaluator ⟨"*"⟩
                  (.node ⟨.fin 2, none⟩) (.node ⟨.fin 2.5, none⟩)
                  none)), .opTerm ⟨"-"⟩] :=
            multiplicativePass_op_after_evble ⟨"-"⟩ _
              [.evble (.node ⟨.fin 1, none⟩), .opTerm ⟨"+"⟩] _
        _ = multiplicativePass [.op ⟨"/"⟩, .num ⟨.fin (-1), none⟩]
              [.evble (.node ⟨.fin 1, none⟩), .opTerm ⟨"+"⟩,
                .evble (.ev (.operatorEvaluator ⟨"*"⟩
                  (.node ⟨.fin 2, none⟩) (.node ⟨.fin 2.5, none⟩)
                  none)), .opTerm ⟨"-"⟩,
                .evble (.node ⟨.fin (-2), none⟩)] :=
            multiplicativePass_num_after_op _ _
              [.evble (.node ⟨.fin 1, none⟩), .opTerm ⟨"+"⟩,
                .evble (.ev (.operatorEvaluator ⟨"*"⟩
                  (.node ⟨.fin 2, none⟩) (.node ⟨.fin 2.5, none⟩)
                  none))] ⟨"-"⟩ (by simp)
        _ = multiplicativePass [.num ⟨.fin (-1), none⟩]
              [.evble (.node ⟨.fin 1, none⟩), .opTerm ⟨"+"⟩,
                .evble (.ev (.operatorEvaluator ⟨"*"⟩
                  (.node ⟨.fin 2, none⟩) (.node ⟨.fin 2.5, none⟩)
                  none)), .opTerm ⟨"-"⟩,
                .evble (.node ⟨.fin (-2), none⟩), .opTerm ⟨"/"⟩] :=
            multiplicativePass_op_after_evble ⟨"/"⟩ _
              [.evble (.node ⟨.fin 1, none⟩), .opTerm ⟨"+"⟩,
                .evble (.ev (.operatorEvaluator ⟨"*"⟩
                  (.node ⟨.fin 2, none⟩) (.node ⟨.fin 2.5, none⟩)
                  none)), .opTerm ⟨"-"⟩] _
        _ = multiplicativePass []
              [.evble (.node ⟨.fin 1, none⟩), .opTerm ⟨"+"⟩,
                .evble (.ev (.operatorEvaluator ⟨"*"⟩
                  (.node ⟨.fin 2, none⟩) (.node ⟨.fin 2.5, none⟩)
                  none)), .opTerm ⟨"-"⟩,
                .evble (.ev (.operatorEvaluator ⟨"/"⟩
                  (.node ⟨.fin (-2), none⟩) (.node ⟨.fin (-1), none⟩)
                  none))] :=
            multiplicativePass_collapse_num _ _
              [.evble (.node ⟨.fin 1, none⟩), .opTerm ⟨"+"⟩,
                .evble (.ev (.operatorEvaluator ⟨"*"⟩
                  (.node ⟨.fin 2, none⟩) (.node ⟨.fin 2.5, none⟩)
                  none)), .opTerm ⟨"-"⟩]
              (.node ⟨.fin (-2), none⟩) ⟨"/"⟩ (by simp)
        _ = .ok (some [.evble (.node ⟨.fin 1, none⟩), .opTerm ⟨"+"⟩,
              .evble (.ev (.operatorEvaluator ⟨"*"⟩
                (.node ⟨.fin 2, none⟩) (.node ⟨.fin 2.5, none⟩)
                none)), .opTerm ⟨"-"⟩,
              .evble (.ev (.operatorEvaluator ⟨"/"⟩
                (.node ⟨.fin (-2), none⟩) (.node ⟨.fin (-1), none⟩)
                none))]) := multiplicativePass_nil _
    · calc
        additivePass [.evble (.node ⟨.fin 1, none⟩), .opTerm ⟨"+"⟩,
            .evble (.ev (.operatorEvaluator ⟨"*"⟩
              (.node ⟨.fin 2, none⟩) (.node ⟨.fin 2.5, none⟩) none)),
            .opTerm ⟨"-"⟩,
            .evble (.ev (.operatorEvaluator ⟨"/"⟩
              (.node ⟨.fin (-2), none⟩) (.node ⟨.fin (-1), none⟩)
              none))]
          = additivePass [.evble (.ev (.operatorEvaluator ⟨"+"⟩
              (.node ⟨.fin 1, none⟩)
              (.ev (.operatorEvaluator ⟨"*"⟩ (.node ⟨.fin 2, none⟩)
                (.node ⟨.fin 2.5, none⟩) none)) none)), .opTerm ⟨"-"⟩,
              .evble (.ev (.operatorEvaluator ⟨"/"⟩
                (.node ⟨.fin (-2), none⟩) (.node ⟨.fin (-1), none⟩)
                none))] := additivePass_step _ _ _ _
        _ = additivePass [.evble (.ev (.operatorEvaluator ⟨"-"⟩
              (.ev (.operatorEvaluator ⟨"+"⟩ (.node ⟨.fin 1, none⟩)
                (.ev (.operatorEvaluator ⟨"*"⟩ (.node ⟨.fin 2, none⟩)
                  (.node ⟨.fin 2.5, none⟩) none)) none))
              (.ev (.operatorEvaluator ⟨"/"⟩ (.node ⟨.fin (-2), none⟩)
                (.node ⟨.fin (-1), none⟩) none)) none))] :=
            additivePass_step _ _ _ _
        _ = .ok (some [.evble (.ev (.operatorEvaluator ⟨"-"⟩
              (.ev (.operatorEvaluator ⟨"+"⟩ (.node ⟨.fin 1, none⟩)
                (.ev (.operatorEvaluator ⟨"*"⟩ (.node ⟨.fin 2, none⟩)
                  (.node ⟨.fin 2.5, none⟩) none)) none))
              (.ev (.operatorEvaluator ⟨"/"⟩ (.node ⟨.fin (-2), none⟩)
                (.node ⟨.fin (-1), none⟩) none)) none))]) :=
            additivePass_single _
  · intro w
    rw [Evaluator.calc_evble_evaluate_value]
    simp only [Evaluatable.evaluate_ev, Evaluator.op_evaluate_value,
      Evaluatable.evaluate_node]
    rw [opCombine_star_fin, opCombine_plus_fin,
      opCombine_slash_fin _ (by norm_num : (-1 : ℝ) ≠ 0),
      opCombine_minus_fin]
    norm_num

@[simp] theorem SphericalEvaluator.evaluateStep_idt (th ph : Evaluatable)
    (i : IdentNode) (l : Option SphericalStyle) (w : BrowserEnv) :
    (⟨th, ph, .idt i, l⟩ : SphericalEvaluator).evaluateStep w =
      (((normalizeUnit (th.evaluate w).1).number,
        (normalizeUnit (ph.evaluate w).1).number, .inr i.value),
        ⟨(th.evaluate w).2, (ph.evaluate w).2, .idt i, l⟩) := by
  rw [SphericalEvaluator.evaluateStep]

@[simp] theorem SphericalEvaluator.evaluateStep_evble (th ph : Evaluatable)
    (x : Evaluatable) (l : Option SphericalStyle) (w : BrowserEnv) :
    (⟨th, ph, .evble x, l⟩ : SphericalEvaluator).evaluateStep w =
      (((normalizeUnit (th.evaluate w).1).number,
        (normalizeUnit (ph.evaluate w).1).number,
        .inl (normalizeUnit (x.evaluate w).1).number),
        ⟨(th.evaluate w).2, (ph.evaluate w).2, .evble (x.evaluate w).2,
          l⟩) := by
  rw [SphericalEvaluator.evaluateStep]

/-- C9: `SphericalEvaluator` defaults a missing azimuth and inclination
term to the zero sentinel and a missing radius term to the `auto`
identifier, so `SphericalEvaluator([])` evaluates to `[0, 0, 'auto']`;
given the terms `(1,'rad') (180,'deg') (100,'cm')` it evaluates to
`[1, π, 1]`, normalizing azimuth and inclination to radians and the
radius to meters. -/
theorem C9_spherical_defaults :
    SphericalEvaluator.construct [] =
      .ok ⟨.node ZERO, .node ZERO, .idt AUTO, none⟩ ∧
    (∀ w : BrowserEnv,
      ((⟨.node ZERO, .node ZERO, .idt AUTO, none⟩ :
        SphericalEvaluator).evaluate w).1 =
        (.fin 0, .fin 0, .inr "auto")) ∧
    SphericalEvaluator.construct [[.num ⟨.fin 1, some "rad"⟩,
      .num ⟨.fin 180, some "deg"⟩, .num ⟨.fin 100, some "cm"⟩]] =
      .ok ⟨.node ⟨.fin 1, some "rad"⟩, .node ⟨.fin 180, some "deg"⟩,
        .evble (.node ⟨.fin 100, some "cm"⟩), none⟩ ∧
    (∀ w : BrowserEnv,
      ((⟨.node ⟨.fin 1, some "rad"⟩, .node ⟨.fin 180, some "deg"⟩,
        .evble (.node ⟨.fin 100, some "cm"⟩), none⟩ :
        SphericalEvaluator).evaluate w).1 =
        (.fin 1, .fin Real.pi, .inl (.fin 1))) := by
  refine ⟨?_, fun w => ?_, ?_, fun w => ?_⟩
  · simp [SphericalEvaluator.construct, evaluatableFor, Bind.bind,
      Except.bind, Pure.pure, Except.pure]
  · rw [SphericalEvaluator.spherical_evaluate_uncached _ w rfl]
    simp [normalizeUnit, ZERO, AUTO]
  · simp [SphericalEvaluator.construct, evaluatableFor, Bind.bind,
      Except.bind, Pure.pure, Except.pure]
  · rw [SphericalEvaluator.spherical_evaluate_uncached _ w rfl]
    simp [normalizeUnit]
    ring

/-- C10: a radius term that is any `IdentNode` — not only `auto` — is
stored raw and unwrapped, and `evaluate` returns that identifier's string
value verbatim as the third tuple element while the first two elements
are the normalized azimuth and inclination numbers. -/
theorem C10_radius_ident_verbatim (v : String) (n1 n2 : NumberNode)
    (w : BrowserEnv) :
    SphericalEvaluator.construct [[.num n1, .num n2, .ident ⟨v⟩]] =
      .ok ⟨.node n1, .node n2, .idt ⟨v⟩, none⟩ ∧
    ((⟨.node n1, .node n2, .idt ⟨v⟩, none⟩ :
      SphericalEvaluator).evaluate w).1 =
      ((normalizeUnit n1).number, (normalizeUnit n2).number, .inr v) := by
  constructor
  · simp [SphericalEvaluator.construct, evaluatableFor, Bind.bind,
      Except.bind, Pure.pure, Except.pure]
  · rw [SphericalEvaluator.spherical_evaluate_uncached _ w rfl]
    simp

end ModelViewer
